import Mathlib

/-!
Verification of the NaPTAN Stop Finder core (src/script.js), shallowly
embedded over the reals: the Haversine distance calculator
(`calculateDistance`), the travel-time estimator (`estimateTravelTime`),
the search-result processing of `searchNaPTANStops`, the search-button
click handler, and the per-stop field extraction of `displaySearchResults`.

JavaScript numbers are modelled as real numbers; the single relevant
NaN-producing path (division by an absent speed-table entry) is modelled
with `Option`: `none` stands for the NaN result.
-/

/-- Result record of `calculateDistance`: distance in miles and km. -/
structure DistanceResult where
  miles : ℝ
  km : ℝ

attribute [ext] DistanceResult

/-- JavaScript `Math.atan2 y x` on the reals (signed-zero cases collapse to 0). -/
noncomputable def atan2 (y x : ℝ) : ℝ :=
  if 0 < x then Real.arctan (y / x)
  else if x < 0 ∧ 0 ≤ y then Real.arctan (y / x) + Real.pi
  else if x < 0 ∧ y < 0 then Real.arctan (y / x) - Real.pi
  else if x = 0 ∧ 0 < y then Real.pi / 2
  else if x = 0 ∧ y < 0 then -(Real.pi / 2)
  else 0

/-- `toRadians(degrees)` from script.js: `degrees * (Math.PI / 180)`. -/
noncomputable def toRadians (degrees : ℝ) : ℝ :=
  degrees * (Real.pi / 180)

/-- The local `a` computed inside `calculateDistance` (script.js lines 96-98):
`sin(dLat/2)*sin(dLat/2) + cos(toRadians lat1)*cos(toRadians lat2)*sin(dLon/2)*sin(dLon/2)`. -/
noncomputable def haversine_a (lat1 lon1 lat2 lon2 : ℝ) : ℝ :=
  let dLat := toRadians (lat2 - lat1)
  let dLon := toRadians (lon2 - lon1)
  Real.sin (dLat / 2) * Real.sin (dLat / 2) +
    Real.cos (toRadians lat1) * Real.cos (toRadians lat2) *
    Real.sin (dLon / 2) * Real.sin (dLon / 2)

/-- The local `c` computed inside `calculateDistance` (script.js line 100):
`2 * atan2(sqrt a, sqrt (1 - a))`. -/
noncomputable def haversine_c (lat1 lon1 lat2 lon2 : ℝ) : ℝ :=
  2 * atan2 (Real.sqrt (haversine_a lat1 lon1 lat2 lon2))
    (Real.sqrt (1 - haversine_a lat1 lon1 lat2 lon2))

/-- `calculateDistance(lat1, lon1, lat2, lon2)` from script.js lines 91-108:
Haversine with Earth radius `R = 3959` miles, `km = miles * 1.60934`. -/
noncomputable def calculateDistance (lat1 lon1 lat2 lon2 : ℝ) : DistanceResult :=
  let R : ℝ := 3959
  let distanceMiles := R * haversine_c lat1 lon1 lat2 lon2
  let distanceKm := distanceMiles * 1.60934
  { miles := distanceMiles, km := distanceKm }

/-- `radians(x)` as written in the spec formula (spec §4.2). -/
noncomputable def spec_radians (x : ℝ) : ℝ :=
  x * Real.pi / 180

/-- The intermediate `h` of the spec formula (spec §4.2):
`sin²(dLat/2) + cos(radians(a.lat)) * cos(radians(b.lat)) * sin²(dLon/2)`. -/
noncomputable def spec_h (lat1 lon1 lat2 lon2 : ℝ) : ℝ :=
  let dLat := spec_radians (lat2 - lat1)
  let dLon := spec_radians (lon2 - lon1)
  Real.sin (dLat / 2) ^ 2 +
    Real.cos (spec_radians lat1) * Real.cos (spec_radians lat2) * Real.sin (dLon / 2) ^ 2

/-- The spec's distance contract (spec §4.2), transcribed from its words for the
refinement claim C1: `c = 2 * atan2(sqrt h, sqrt (1 - h))`, `miles = 3959.0 * c`,
`km = miles * 1.60934`. -/
noncomputable def spec_distance (lat1 lon1 lat2 lon2 : ℝ) : DistanceResult :=
  let h := spec_h lat1 lon1 lat2 lon2
  let c := 2 * atan2 (Real.sqrt h) (Real.sqrt (1 - h))
  let miles := 3959.0 * c
  { miles := miles, km := miles * 1.60934 }

/-- JavaScript `Math.round x` on the reals: `⌊x + 1/2⌋` (round half toward +∞). -/
noncomputable def jsRound (x : ℝ) : ℤ :=
  Int.floor (x + 1 / 2)

/-- The `speeds` object of `estimateTravelTime` (script.js lines 126-130);
`none` models JavaScript property lookup returning `undefined`. -/
def speeds (mode : String) : Option ℝ :=
  if mode = "walking" then some 3
  else if mode = "cycling" then some 12
  else if mode = "bus" then some 15
  else none

/-- `estimateTravelTime(distanceMiles, mode)` from script.js lines 125-134:
`hours = distanceMiles / speeds[mode]`, result `Math.round(hours * 60)`.
When `speeds[mode]` is `undefined` the division yields NaN and `Math.round`
propagates it, modelled as `none`. -/
noncomputable def estimateTravelTime (distanceMiles : ℝ) (mode : String) : Option ℤ :=
  match speeds mode with
  | some s => some (jsRound (distanceMiles / s * 60))
  | none => none

/-- `estimateTravelTime(distanceMiles)` called with the mode argument omitted:
JavaScript binds the declared default parameter value `'walking'`
(script.js line 125: `mode = 'walking'`). -/
noncomputable def estimateTravelTimeDefault (distanceMiles : ℝ) : Option ℤ :=
  estimateTravelTime distanceMiles ("walking")

/-- The spec's rounding (spec §4.2): round half-up, the documented choice. -/
noncomputable def specRound (x : ℝ) : ℤ :=
  Int.floor (x + 1 / 2)

/-- The spec's fixed speed table (spec §4.2): walking 3, cycling 12, bus 15 mph.
Only the three enumerated modes are meaningful. -/
noncomputable def spec_speedTable (mode : String) : ℝ :=
  if mode = "walking" then 3
  else if mode = "cycling" then 12
  else 15

/-- The spec's travel-time contract (spec §4.2), transcribed from its words:
`round((distanceMiles / speed[mode]) * 60)`. -/
noncomputable def spec_estimateTravelTime (d : ℝ) (mode : String) : ℤ :=
  specRound (d / spec_speedTable mode * 60)

/-- Shape of the parsed JSON body consumed by `searchNaPTANStops`
(script.js lines 43-49): a bare array, an object carrying a `member` array,
or anything else. -/
inductive APIData (α : Type) where
  | arr (l : List α)
  | memberObj (l : List α)
  | other

/-- The records a response carries: the corpus the search runs over. -/
def corpusOf {α : Type} : APIData α → List α
  | .arr l => l
  | .memberObj l => l
  | .other => []

/-- The result-processing core of `searchNaPTANStops(query)` (script.js
lines 43-49): `data.slice(0, 10)`, or `data.member.slice(0, 10)`, else `[]`.
The query only feeds the out-of-scope network fetch; processing of the
returned data does not consult it. -/
def searchNaPTANStops {α : Type} (query : String) (data : APIData α) : List α :=
  match data with
  | .arr l => l.take 10
  | .memberObj l => l.take 10
  | .other => []

/-- JavaScript whitespace characters recognized by `String.prototype.trim`. -/
def isJSWhitespace (c : Char) : Bool :=
  c ∈ [' ', '\t', '\n', '\r', '\x0b', '\x0c', ' ', ' ', ' ',
    ' ', ' ', ' ', ' ', ' ', ' ', ' ',
    ' ', ' ', ' ', ' ', ' ', ' ', ' ',
    '　', '﻿']

/-- JavaScript `String.prototype.trim`: strip whitespace from both ends. -/
def jsTrim (s : String) : String :=
  ⟨((s.data.dropWhile isJSWhitespace).reverse.dropWhile isJSWhitespace).reverse⟩

/-- Outcome of the search-button click handler (script.js lines 268-293):
either the empty-query rejection path (`alert` + early return, the surfaced
validation error) or the displayed search results. -/
inductive SearchOutcome (α : Type) where
  | validationError
  | results (stops : List α)

/-- The search-button click handler (script.js lines 268-284) on the success
path of the fetch: `query = searchInput.value.trim()`; if `!query` (empty
string) reject and never search; otherwise display
`searchNaPTANStops(query)` over the fetched data. -/
def searchBtnClick {α : Type} (input : String) (data : APIData α) : SearchOutcome α :=
  let query := jsTrim input
  if query = "" then SearchOutcome.validationError
  else SearchOutcome.results (searchNaPTANStops query data)

/-- A raw stop object as consumed by `displaySearchResults` (script.js lines
155-162): each field may be present under either of two schema naming
variants, or absent (`none` = the property is `undefined`). -/
structure RawStop where
  ATCOCode : Option String
  atcoCode : Option String
  CommonName : Option String
  name : Option String
  LocalityName : Option String
  locality : Option String
  StopType : Option String
  stopType : Option String
  Status : Option String
  status : Option String
  Latitude : Option ℝ
  latitude : Option ℝ
  Longitude : Option ℝ
  longitude : Option ℝ

/-- The normalized per-stop fields `displaySearchResults` extracts. -/
structure StopRecord where
  atcoCode : String
  commonName : String
  locality : String
  stopType : String
  status : String
  latitude : ℝ
  longitude : ℝ

/-- JavaScript truthiness filter for a string-valued property: `undefined`
and the empty string are falsy. -/
def jsTruthy (o : Option String) : Option String :=
  match o with
  | some s => if s = "" then none else some s
  | none => none

/-- JavaScript `a || b` on two string-valued properties: the first truthy
operand, if any. -/
def jsOr (a b : Option String) : Option String :=
  match jsTruthy a with
  | some s => some s
  | none => jsTruthy b

/-- JavaScript `a || b || dflt` with a string literal default. -/
def jsOrStr (a b : Option String) (dflt : String) : String :=
  (jsOr a b).getD dflt

/-- JavaScript `a || b || dflt` on number-valued properties: `undefined` and
`0` are falsy. -/
noncomputable def jsOrNum (a b : Option ℝ) (dflt : ℝ) : ℝ :=
  match a with
  | some x =>
    if x = 0 then
      match b with
      | some y => if y = 0 then dflt else y
      | none => dflt
    else x
  | none =>
    match b with
    | some y => if y = 0 then dflt else y
    | none => dflt

/-- The per-stop field extraction of `displaySearchResults` (script.js lines
156-162): `stop.ATCOCode || stop.atcoCode || 'N/A'` and so on. -/
noncomputable def extractStop (stop : RawStop) : StopRecord :=
  { atcoCode := jsOrStr stop.ATCOCode stop.atcoCode ("N/A")
    commonName := jsOrStr stop.CommonName stop.name ("Unnamed Stop")
    locality := jsOrStr stop.LocalityName stop.locality ("Unknown")
    stopType := jsOrStr stop.StopType stop.stopType ("Bus Stop")
    status := jsOrStr stop.Status stop.status ("Active")
    latitude := jsOrNum stop.Latitude stop.latitude 0
    longitude := jsOrNum stop.Longitude stop.longitude 0 }

/-- A raw stop with every property absent. -/
def noneStop : RawStop :=
  ⟨none, none, none, none, none, none, none, none, none, none, none, none, none, none⟩

/-- A raw stop whose first-variant ATCO and name properties are present only
as empty strings (falsy in JS) and whose status is carried by the
second-listed variant only. -/
def emptyFirstStop : RawStop :=
  ⟨some "", none, some "", some "", none, none, none, none, none, some "Inactive",
    none, none, none, none⟩

/-- C1: for all coordinate pairs, `calculateDistance` returns exactly the
spec's Haversine result — miles `= 3959.0 * c` with the spec's `h` and `c` —
and its `km` field equals `miles * 1.60934`. -/
theorem calculateDistance_matches_spec (lat1 lon1 lat2 lon2 : ℝ) :
    calculateDistance lat1 lon1 lat2 lon2 = spec_distance lat1 lon1 lat2 lon2 ∧
    (calculateDistance lat1 lon1 lat2 lon2).km =
      (calculateDistance lat1 lon1 lat2 lon2).miles * 1.60934 := by
  have ha : haversine_a lat1 lon1 lat2 lon2 = spec_h lat1 lon1 lat2 lon2 := by
    simp only [haversine_a, spec_h, toRadians, spec_radians]
    ring
  refine ⟨?_, rfl⟩
  simp only [calculateDistance, spec_distance, haversine_c, ha]
  ext <;> norm_num

/-- C7: `calculateDistance` is symmetric in its two endpoints. -/
theorem calculateDistance_symm (lat1 lon1 lat2 lon2 : ℝ) :
    calculateDistance lat1 lon1 lat2 lon2 = calculateDistance lat2 lon2 lat1 lon1 := by
  have ha : haversine_a lat1 lon1 lat2 lon2 = haversine_a lat2 lon2 lat1 lon1 := by
    simp only [haversine_a, toRadians]
    rw [show lat1 - lat2 = -(lat2 - lat1) by ring, show lon1 - lon2 = -(lon2 - lon1) by ring]
    simp only [neg_mul, neg_div, Real.sin_neg]
    ring
  simp only [calculateDistance, haversine_c, ha]

/-- C8: identical endpoints give intermediate `a = 0`, `c = 0`, and exactly
zero distance in both units. -/
theorem calculateDistance_self (lat lon : ℝ) :
    haversine_a lat lon lat lon = 0 ∧ haversine_c lat lon lat lon = 0 ∧
    (calculateDistance lat lon lat lon).miles = 0 ∧
    (calculateDistance lat lon lat lon).km = 0 := by
  have ha : haversine_a lat lon lat lon = 0 := by
    simp [haversine_a, toRadians]
  have hc : haversine_c lat lon lat lon = 0 := by
    rw [haversine_c, ha]
    norm_num [atan2, Real.arctan_zero]
  exact ⟨ha, hc, by simp [calculateDistance, hc], by simp [calculateDistance, hc]⟩

/-- C2: for non-negative distance and a recognized mode, `estimateTravelTime`
returns the spec's `round((d / speed[mode]) * 60)` minutes, and the fixture
`estimateTravelTime 3 "walking" = 60` holds. -/
theorem estimateTravelTime_matches_spec (d : ℝ) (mode : String) (hd : 0 ≤ d)
    (hm : mode = "walking" ∨ mode = "cycling" ∨ mode = "bus") :
    estimateTravelTime d mode = some (spec_estimateTravelTime d mode) ∧
    estimateTravelTime 3 ("walking") = some 60 := by
  have h60 : jsRound (60 : ℝ) = 60 := by
    rw [jsRound, Int.floor_eq_iff]
    constructor <;> norm_num
  have fix : estimateTravelTime 3 ("walking") = some 60 := by
    simp [estimateTravelTime, speeds, h60]
  refine ⟨?_, fix⟩
  rcases hm with h | h | h <;> subst h <;>
    simp [estimateTravelTime, speeds, spec_estimateTravelTime, spec_speedTable,
      specRound, jsRound]

/-- Witness for C2 at distance 3 and mode walking. -/
theorem estimateTravelTime_matches_spec_witness :
    estimateTravelTime 3 ("walking") = some 60 :=
  (estimateTravelTime_matches_spec 3 ("walking") (by norm_num) (Or.inl rfl)).2

/-- C3 (code behavior): for a mode outside the speed table the code does not
signal an error — `speeds[mode]` is `undefined`, the division produces NaN,
and `Math.round` propagates it (modelled as `none`). -/
theorem estimateTravelTime_unknown_mode_NaN (d : ℝ) (mode : String)
    (h1 : mode ≠ "walking") (h2 : mode ≠ "cycling") (h3 : mode ≠ "bus") :
    estimateTravelTime d mode = none := by
  simp [estimateTravelTime, speeds, h1, h2, h3]

/-- Witness for C3: `estimateTravelTime 3 "driving"` evaluates to NaN
(`none`), not a signalled error. -/
theorem estimateTravelTime_unknown_mode_NaN_witness :
    estimateTravelTime 3 ("driving") = none :=
  estimateTravelTime_unknown_mode_NaN 3 ("driving") (by decide) (by decide) (by decide)

/-- C9: for a fixed recognized mode, travel time is non-decreasing in the
distance argument. -/
theorem estimateTravelTime_mono (mode : String)
    (hm : mode = "walking" ∨ mode = "cycling" ∨ mode = "bus")
    (d1 d2 : ℝ) (h12 : d1 ≤ d2) :
    ∃ t1 t2 : ℤ, estimateTravelTime d1 mode = some t1 ∧
      estimateTravelTime d2 mode = some t2 ∧ t1 ≤ t2 := by
  have key : ∀ s : ℝ, 0 < s → jsRound (d1 / s * 60) ≤ jsRound (d2 / s * 60) := by
    intro s hs
    simp only [jsRound]
    apply Int.floor_le_floor
    gcongr
  rcases hm with h | h | h <;> subst h
  · refine ⟨jsRound (d1 / 3 * 60), jsRound (d2 / 3 * 60), ?_, ?_, key 3 (by norm_num)⟩ <;>
      simp [estimateTravelTime, speeds]
  · refine ⟨jsRound (d1 / 12 * 60), jsRound (d2 / 12 * 60), ?_, ?_, key 12 (by norm_num)⟩ <;>
      simp [estimateTravelTime, speeds]
  · refine ⟨jsRound (d1 / 15 * 60), jsRound (d2 / 15 * 60), ?_, ?_, key 15 (by norm_num)⟩ <;>
      simp [estimateTravelTime, speeds]

/-- Witness for C9 on walking with distances 1 and 2. -/
theorem estimateTravelTime_mono_witness :
    ∃ t1 t2 : ℤ, estimateTravelTime 1 ("walking") = some t1 ∧
      estimateTravelTime 2 ("walking") = some t2 ∧ t1 ≤ t2 :=
  estimateTravelTime_mono ("walking") (Or.inl rfl) 1 2 (by norm_num)

/-- C10: omitting the mode argument behaves exactly as passing mode
`"walking"`: the default parameter makes the two calls identical, and the
result is `round((d / 3) * 60)`. -/
theorem estimateTravelTime_default_mode (d : ℝ) :
    estimateTravelTimeDefault d = estimateTravelTime d ("walking") ∧
    estimateTravelTimeDefault d = some (jsRound (d / 3 * 60)) := by
  refine ⟨rfl, ?_⟩
  simp [estimateTravelTimeDefault, estimateTravelTime, speeds]

/-- C4: the search returns at most 10 records and they form a prefix of the
corpus (hence appear in original corpus order); a 100-row corpus yields
exactly the first 10 rows. -/
theorem searchNaPTANStops_cap_and_order {α : Type} (query : String) (data : APIData α) :
    (searchNaPTANStops query data).length ≤ 10 ∧
    searchNaPTANStops query data <+: corpusOf data ∧
    (∀ l : List α, l.length = 100 →
      searchNaPTANStops query (APIData.arr l) = l.take 10 ∧
      (searchNaPTANStops query (APIData.arr l)).length = 10) := by
  refine ⟨?_, ?_, ?_⟩
  · cases data <;> simp [searchNaPTANStops]
  · cases data
    · exact List.take_prefix _ _
    · exact List.take_prefix _ _
    · exact List.nil_prefix
  · intro l hl
    refine ⟨rfl, ?_⟩
    simp [searchNaPTANStops, hl]

/-- Witness for C4: a 100-element corpus yields exactly 10 results. -/
theorem searchNaPTANStops_cap_and_order_witness :
    (searchNaPTANStops ("oxford") (APIData.arr (List.range 100))).length = 10 :=
  ((searchNaPTANStops_cap_and_order ("oxford") (APIData.arr (List.range 100))).2.2
    (List.range 100) (by simp)).2

/-- C5: a whitespace-only query is rejected on the validation path and the
handler never returns a result list — in particular never the full corpus. -/
theorem searchBtnClick_empty_query {α : Type} (input : String) (data : APIData α)
    (h : ∀ c ∈ input.data, isJSWhitespace c) :
    searchBtnClick input data = SearchOutcome.validationError ∧
    ∀ l : List α, searchBtnClick input data ≠ SearchOutcome.results l := by
  have hdrop : input.data.dropWhile isJSWhitespace = [] := by
    rw [List.dropWhile_eq_nil_iff]
    exact h
  have ht : jsTrim input = "" := by
    simp [jsTrim, hdrop]
  refine ⟨by simp [searchBtnClick, ht], fun l => by simp [searchBtnClick, ht]⟩

/-- Witness for C5 with a query of two spaces and a tab over a 3-row corpus. -/
theorem searchBtnClick_empty_query_witness :
    searchBtnClick (" \t ") (APIData.arr ([1, 2, 3] : List Nat)) =
      SearchOutcome.validationError :=
  (searchBtnClick_empty_query (" \t ") (APIData.arr ([1, 2, 3] : List Nat)) (by decide)).1

/-- C6 counterexample: with every property absent, the extracted name is
`"Unnamed Stop"` and the locality `"Unknown"` — not the empty string the
claim states as the default for these two fields. -/
theorem extractStop_empty_default_counterexample :
    (extractStop noneStop).commonName ≠ "" ∧ (extractStop noneStop).locality ≠ "" := by
  constructor <;> simp [extractStop, noneStop, jsOrStr, jsOr, jsTruthy]

/-- C6 (amended): each field absent — or present only as the empty string,
which JS truthiness treats as absent — under both naming variants defaults
to "N/A" (atcoCode), "Unnamed Stop" (name), "Unknown" (locality),
"Bus Stop" (stopType) and "Active" (status); a field present with a
non-empty value under either naming variant takes the first-listed such
variant: a non-empty first-variant value is always used, and otherwise a
non-empty second-variant value is used; and a corpus whose rows all lack
Status fields yields status "Active" on every extracted row. -/
theorem extractStop_defaults (s : RawStop) :
    (((s.ATCOCode = none ∨ s.ATCOCode = some "") →
        (s.atcoCode = none ∨ s.atcoCode = some "") → (extractStop s).atcoCode = "N/A") ∧
      (∀ v, v ≠ "" → s.ATCOCode = some v → (extractStop s).atcoCode = v) ∧
      (∀ v, v ≠ "" → (s.ATCOCode = none ∨ s.ATCOCode = some "") →
        s.atcoCode = some v → (extractStop s).atcoCode = v)) ∧
    (((s.CommonName = none ∨ s.CommonName = some "") →
        (s.name = none ∨ s.name = some "") → (extractStop s).commonName = "Unnamed Stop") ∧
      (∀ v, v ≠ "" → s.CommonName = some v → (extractStop s).commonName = v) ∧
      (∀ v, v ≠ "" → (s.CommonName = none ∨ s.CommonName = some "") →
        s.name = some v → (extractStop s).commonName = v)) ∧
    (((s.LocalityName = none ∨ s.LocalityName = some "") →
        (s.locality = none ∨ s.locality = some "") → (extractStop s).locality = "Unknown") ∧
      (∀ v, v ≠ "" → s.LocalityName = some v → (extractStop s).locality = v) ∧
      (∀ v, v ≠ "" → (s.LocalityName = none ∨ s.LocalityName = some "") →
        s.locality = some v → (extractStop s).locality = v)) ∧
    (((s.StopType = none ∨ s.StopType = some "") →
        (s.stopType = none ∨ s.stopType = some "") → (extractStop s).stopType = "Bus Stop") ∧
      (∀ v, v ≠ "" → s.StopType = some v → (extractStop s).stopType = v) ∧
      (∀ v, v ≠ "" → (s.StopType = none ∨ s.StopType = some "") →
        s.stopType = some v → (extractStop s).stopType = v)) ∧
    (((s.Status = none ∨ s.Status = some "") →
        (s.status = none ∨ s.status = some "") → (extractStop s).status = "Active") ∧
      (∀ v, v ≠ "" → s.Status = some v → (extractStop s).status = v) ∧
      (∀ v, v ≠ "" → (s.Status = none ∨ s.Status = some "") →
        s.status = some v → (extractStop s).status = v)) ∧
    (∀ stops : List RawStop, (∀ t ∈ stops, t.Status = none ∧ t.status = none) →
      ∀ r ∈ stops.map extractStop, r.status = "Active") := by
  have base : ∀ (a b : Option String) (d : String),
      (a = none ∨ a = some "") → (b = none ∨ b = some "") → jsOrStr a b d = d := by
    intro a b d h1 h2
    rcases h1 with rfl | rfl <;> rcases h2 with rfl | rfl <;>
      simp [jsOrStr, jsOr, jsTruthy]
  have pref1 : ∀ (a b : Option String) (d v : String), v ≠ "" → a = some v →
      jsOrStr a b d = v := by
    intro a b d v hv hb
    subst hb
    simp [jsOrStr, jsOr, jsTruthy, hv]
  have pref2 : ∀ (a b : Option String) (d v : String), v ≠ "" →
      (a = none ∨ a = some "") → b = some v → jsOrStr a b d = v := by
    intro a b d v hv h1 hb
    subst hb
    rcases h1 with rfl | rfl <;> simp [jsOrStr, jsOr, jsTruthy, hv]
  refine ⟨⟨fun h1 h2 => base _ _ _ h1 h2, fun v hv hs => pref1 _ _ _ _ hv hs,
      fun v hv h1 hs => pref2 _ _ _ _ hv h1 hs⟩,
    ⟨fun h1 h2 => base _ _ _ h1 h2, fun v hv hs => pref1 _ _ _ _ hv hs,
      fun v hv h1 hs => pref2 _ _ _ _ hv h1 hs⟩,
    ⟨fun h1 h2 => base _ _ _ h1 h2, fun v hv hs => pref1 _ _ _ _ hv hs,
      fun v hv h1 hs => pref2 _ _ _ _ hv h1 hs⟩,
    ⟨fun h1 h2 => base _ _ _ h1 h2, fun v hv hs => pref1 _ _ _ _ hv hs,
      fun v hv h1 hs => pref2 _ _ _ _ hv h1 hs⟩,
    ⟨fun h1 h2 => base _ _ _ h1 h2, fun v hv hs => pref1 _ _ _ _ hv hs,
      fun v hv h1 hs => pref2 _ _ _ _ hv h1 hs⟩, ?_⟩
  intro stops hstops r hr
  rw [List.mem_map] at hr
  obtain ⟨t, ht, rfl⟩ := hr
  exact base _ _ _ (Or.inl (hstops t ht).1) (Or.inl (hstops t ht).2)

/-- Witness for C6: the all-absent record defaults its status and name; the
record whose first-variant fields are empty strings still defaults atcoCode
and name, and takes its status from the second-listed variant. -/
theorem extractStop_defaults_witness :
    (extractStop noneStop).status = "Active" ∧
    (extractStop emptyFirstStop).atcoCode = "N/A" ∧
    (extractStop emptyFirstStop).commonName = "Unnamed Stop" ∧
    (extractStop emptyFirstStop).status = "Inactive" :=
  ⟨(extractStop_defaults noneStop).2.2.2.2.1.1 (Or.inl rfl) (Or.inl rfl),
   (extractStop_defaults emptyFirstStop).1.1 (Or.inr rfl) (Or.inl rfl),
   (extractStop_defaults emptyFirstStop).2.1.1 (Or.inr rfl) (Or.inr rfl),
   (extractStop_defaults emptyFirstStop).2.2.2.2.1.2.2 ("Inactive") (by decide)
     (Or.inl rfl) rfl⟩
